import Mathlib

/-!
# Shallow embedding of `src/background.ts` (Cookie-AutoDelete)

The file embeds the startup/event-wiring layer of the extension:
store initialization from `browser.storage.local`, the debounced
`saveToStorage` writer, the `onSettingsChange` store subscriber, the
`runtime.onStartup` / `runtime.onInstalled` handlers, and the popup
port machinery (`handleConnect`, `onCookiePopupUpdates`).

External collaborators (redux reducers, `services/Libs`, the browser
API) are not part of `src/`; they appear here as parameters or as
opaque effect constructors.  Each handler is embedded as a pure
function from its observable inputs to the list of effects it performs
(dispatches, listener registrations, browsingData removals, posted
messages), in source order.
-/

namespace CADBackground

/-! ## Store initialization (`onStartUp`, lines 155-166)

`browser.storage.local.get()` yields an object whose optional `state`
entry is a string; JavaScript truthiness on a string is `≠ ""`.
`JSON.parse` is embedded as a parameter `parse : String → Option α`
(`none` models a thrown exception); the empty object literal `{}` is
the parameter `emptyState`. -/

/-- Embeds lines 155-166 of `onStartUp`: the value handed to
`createStore`.  `storageState` is `storage.state` (`none` when the key
is absent); a falsy string (`""`) takes the `else` branch; a `parse`
failure is caught and replaced by `emptyState`. -/
def startupStoreInit {α : Type} (parse : String → Option α) (emptyState : α)
    (storageState : Option String) : α :=
  match storageState with
  | none => emptyState
  | some s =>
    if s = "" then emptyState
    else
      match parse s with
      | some v => v
      | none => emptyState

/-! ## Debounced disk writes (`saveToStorage`, lines 42-54)

The mutable module state is `delaySave`; a `setTimeout` schedules one
pending flush.  The JavaScript event loop is single-threaded, so the
system is a sequence of atomic events: a call to `saveToStorage`, a
redux state change, or the firing of a scheduled timer.  `pending`
counts timers currently scheduled; a flush can only fire when one is
pending. -/

structure SaveState (α : Type) where
  delaySave : Bool
  pending : Nat
  storeState : α
  disk : Option String
  deriving Repr, DecidableEq

inductive SaveEvent (α : Type) where
  | saveCall : SaveEvent α
  | timerFire : SaveEvent α
  | setStore (v : α) : SaveEvent α

/-- One atomic step of the `saveToStorage` machinery.  `saveCall` is
the body of `saveToStorage` (lines 44-54): a no-op when `delaySave` is
already set, otherwise it sets `delaySave` and schedules a flush.
`timerFire` is the `setTimeout` callback (lines 47-52): it clears
`delaySave` and writes `JSON.stringify(store.getState())` — the store
state *at flush time* — to disk; it can only fire when a timer is
pending.  `setStore` models a redux dispatch changing the state. -/
def saveStep {α : Type} (serialize : α → String) (s : SaveState α) :
    SaveEvent α → SaveState α
  | .saveCall =>
    if s.delaySave then s
    else { s with delaySave := true, pending := s.pending + 1 }
  | .timerFire =>
    if s.pending = 0 then s
    else { s with delaySave := false, pending := s.pending - 1,
                  disk := some (serialize s.storeState) }
  | .setStore v => { s with storeState := v }

/-- Initial module state: `delaySave = false` (line 43), no timer
scheduled. -/
def saveInit {α : Type} (st0 : α) : SaveState α :=
  { delaySave := false, pending := 0, storeState := st0, disk := none }

def saveRun {α : Type} (serialize : α → String) (st0 : α)
    (evs : List (SaveEvent α)) : SaveState α :=
  evs.foldl (saveStep serialize) (saveInit st0)

/-- The timer-count invariant: a timer is pending exactly when
`delaySave` is set. -/
def SaveInv {α : Type} (s : SaveState α) : Prop :=
  s.pending = if s.delaySave then 1 else 0

/-! ## Effect model for the event handlers

Each handler is embedded as a pure function returning the ordered list
of externally visible operations it performs.  Dispatched redux
actions, browser-API calls and listener registrations are effect
constructors; `cadLog` calls (pure logging) are not modelled.  Store
reads (`getSetting`, `store.getState()`) are parameters: the external
reducers are not part of this file's source, so each read site is
represented by the value it observes. -/

/-- Modelled from the spec: the site-data enumeration (`SiteDataType`)
lives in the typings outside this file; `background.ts` itself names
only `SiteDataType.LOCALSTORAGE`.  The loop domain `SITEDATATYPES` and
the name map `siteDataToBrowser` (both imported from `services/Libs`)
are kept as parameters of the embeddings below. -/
inductive SiteDataType where
  | CACHE
  | COOKIES
  | INDEXEDDB
  | LOCALSTORAGE
  | PLUGINDATA
  | SERVICEWORKERS
  deriving Repr, DecidableEq, Fintype

/-- A settings object.  Each entry `settings[k]` is a `{name, value}`
record; the embedding records, for every key, whether the entry is
present and the truthiness of its `.value` (`none` = key absent, which
is also what `getSetting` returns for a missing key). -/
def Settings : Type := String → Option Bool

/-- Truthiness of `settings[k].value`.  The TypeScript `Settings` type
guarantees the statically-typed keys are present, so a direct `.value`
read on them is embedded as reading `false` for an absent key. -/
def sval (s : Settings) (k : String) : Bool := (s k).getD false

/-- A list expression, with the fields `background.ts` touches:
`cleanLocalStorage` records the truthiness of the optional flag, and
`cleanSiteData = none` models an undefined/null array (a JavaScript
array, even empty, is truthy). -/
structure Expression where
  expression : String
  listType : String
  storeId : String
  cleanLocalStorage : Bool
  cleanSiteData : Option (List SiteDataType)
  deriving Repr, DecidableEq

/-- The redux actions `background.ts` dispatches (payloads restricted
to the fields the dispatch sites populate). -/
inductive Action where
  | onStartupAct
  | addCache (key : String) (value : String)
  | cacheCookieStoreIdNames
  | validateSettings
  | cookieCleanup (greyCleanup : Bool) (ignoreOpenTabs : Option Bool)
  | updateSetting (settingName : String) (value : Bool)
  | updateExpression (payload : Expression)
  | addExpression (storeId : String) (expr : String) (listType : String)
      (cleanSiteData : List SiteDataType)
  | resetCookieDeletedCounter
  deriving Repr, DecidableEq

/-- The handler functions passed to `addListener` calls. -/
inductive Listener where
  | onDomainChange
  | onTabDiscarded
  | onTabUpdate
  | onDomainChangeRemove
  | cleanFromTabEvents
  | onCookieChanged
  | handleConnect
  | startupHandler
  | installedHandler
  deriving Repr, DecidableEq

/-- The browser event objects subscribed to. -/
inductive EvTarget where
  | tabsOnUpdated
  | tabsOnRemoved
  | cookiesOnChanged
  | runtimeOnConnect
  | runtimeOnStartup
  | runtimeOnInstalled
  deriving Repr, DecidableEq

/-- Externally visible operations of the handlers, in source order. -/
inductive Effect where
  | setTitle (title : String)
  | dispatch (a : Action)
  | subscribeBrowser (tgt : EvTarget) (l : Listener)
  | subscribeStore (subscriber : String)
  | storeUserInit
  | setGlobalIcon (active : Bool)
  | checkIfProtected
  | browsingData (t : SiteDataType)
  | alarmsClear (alarmName : String)
  | updateMenuItemCheckbox (checked : Bool)
  | menuInit
  | menuClear
  | openOptionsPage
  deriving Repr, DecidableEq

/-- Embeds `onStartUp` (lines 150-234) as its effect trace.  The store
creation itself is `startupStoreInit` above; the parameters are the
values the handler observes: `browserDet` is `browserDetect()`,
`browserInfoVersion` is `browser.runtime.getBrowserInfo().version`
(read only on Firefox), `platformOs` the platform, `ctxIds` the
truthiness of `getSetting(state, 'contextualIdentities')`, `activeMode`
the value of `getSetting(state, 'activeMode')`, and `hasContextMenus`
the truthiness of `browser.contextMenus`. -/
def onStartUpEffects (mfName mfVersion : String) (browserDet : String)
    (browserInfoVersion : String) (platformOs : String)
    (ctxIds : Bool) (activeMode : Bool) (hasContextMenus : Bool) : List Effect :=
  [.setTitle (mfName ++ " " ++ mfVersion ++ " [STARTING UP...] (0)"),
   .dispatch .onStartupAct]
  ++ (if browserDet = "Firefox" then
        [.dispatch (.addCache "browserVersion" ((browserInfoVersion.splitOn ".").headD ""))]
      else [])
  ++ [.dispatch (.addCache "browserDetect" browserDet),
      .dispatch (.addCache "platformOs" platformOs)]
  ++ (if ctxIds then [.dispatch .cacheCookieStoreIdNames] else [])
  ++ [.subscribeStore "onSettingsChange",
      .subscribeStore "saveToStorage",
      .storeUserInit,
      .dispatch .validateSettings,
      .setGlobalIcon activeMode,
      .checkIfProtected,
      .subscribeBrowser .tabsOnUpdated .onDomainChange,
      .subscribeBrowser .tabsOnUpdated .onTabDiscarded,
      .subscribeBrowser .tabsOnUpdated .onTabUpdate,
      .subscribeBrowser .tabsOnRemoved .onDomainChangeRemove,
      .subscribeBrowser .tabsOnRemoved .cleanFromTabEvents,
      .subscribeBrowser .cookiesOnChanged .onCookieChanged]
  ++ (if hasContextMenus then [.menuInit] else [])
  ++ [.setTitle (mfName ++ " " ++ mfVersion ++ " [READY] (0)")]

/-- Embeds the module top level (lines 290-335): the three
`addListener` calls outside any handler, in source order
(`runtime.onConnect` with `handleConnect`, the `runtime.onStartup`
handler, the `runtime.onInstalled` handler). -/
def moduleTopLevelEffects : List Effect :=
  [.subscribeBrowser .runtimeOnConnect .handleConnect,
   .subscribeBrowser .runtimeOnStartup .startupHandler,
   .subscribeBrowser .runtimeOnInstalled .installedHandler]

/-- Projects the browser-event subscriptions out of an effect trace. -/
def subscriptionOf : Effect → Option (EvTarget × Listener)
  | .subscribeBrowser tgt l => some (tgt, l)
  | _ => none

/-- The body of the `for (const siteData of SITEDATATYPES)` loop
(lines 85-105): the trigger test on the `<type>Cleanup` setting, the
3.4.0→3.5.1+ LocalStorage carve-out (`continue`), and otherwise the
`browsingDataCleanup` call. -/
def sdCleanupCheck (sdToBrowser : SiteDataType → String) (prev cur : Settings)
    (t : SiteDataType) : Option Effect :=
  let sd := sdToBrowser t ++ "Cleanup"
  if ((prev sd).isNone || !((prev sd).getD false)) && (cur sd).getD false then
    if t == SiteDataType.LOCALSTORAGE && (prev "localstorageCleanup").isSome
        && (prev "localstorageCleanup").getD false then
      none
    else some (.browsingData t)
  else none

/-- Embeds `onSettingsChange` (lines 73-148) as its effect trace.
`prev` is `previousSettings`, `cur` the freshly read
`store.getState().settings`.  `sdts` is the external `SITEDATATYPES`
list and `sdToBrowser` the external `siteDataToBrowser` map.  A
`browsingData t` effect stands for the `browsingDataCleanup` call
(`browser.browsingData.remove({since: 0}, ...)`); the value
comparisons on lines 111, 120 and 131 compare the settings values,
here their truthiness. -/
def onSettingsChangeEffects (sdts : List SiteDataType)
    (sdToBrowser : SiteDataType → String) (prev cur : Settings) : List Effect :=
  (if !(sval prev "contextualIdentities") && sval cur "contextualIdentities" then
     [.dispatch .cacheCookieStoreIdNames]
   else [])
  ++ sdts.filterMap (sdCleanupCheck sdToBrowser prev cur)
  ++ (if sval prev "activeMode" && !(sval cur "activeMode") then
        [.alarmsClear "activeModeAlarm"]
      else [])
  ++ (if sval prev "activeMode" != sval cur "activeMode" then
        [.setGlobalIcon (sval cur "activeMode"),
         .updateMenuItemCheckbox (sval cur "activeMode")]
      else [])
  ++ (if sval prev "contextMenus" != sval cur "contextMenus" then
        (if sval cur "contextMenus" then [.menuInit] else [.menuClear])
      else [])
  ++ (if sval prev "localStorageCleanup" != sval cur "localStorageCleanup" then
        [.dispatch (.updateSetting "localstorageCleanup" (sval cur "localStorageCleanup"))]
      else [])
  ++ [.checkIfProtected, .dispatch .validateSettings]

/-- A browser tab, restricted to the field the startup handler reads. -/
structure Tab where
  url : Option String
  deriving Repr, DecidableEq

/-- Embeds `greyCleanup` (lines 424-442): `settings` is the store's
settings as observed through `getSetting`. -/
def greyCleanupEffects (settings : Settings) : List Effect :=
  if sval settings "activeMode" then
    [.dispatch (.cookieCleanup true (settings "cleanCookiesFromOpenTabsOnStartup"))]
  else []

/-- Embeds the `runtime.onStartup` listener (lines 301-334).
`startupTabs` is the result of
`browser.tabs.query({windowType: 'normal'})`.  The two `getSetting`
guards use strict `=== true` comparison. -/
def startupHandlerEffects (settings : Settings) (startupTabs : List Tab) :
    List Effect :=
  (if settings "activeMode" = some true then
     (if settings "enableGreyListCleanup" = some true then
        (if startupTabs.any (fun tab => tab.url == some "about:sessionrestore") then
           []
         else greyCleanupEffects settings)
      else [])
   else [])
  ++ [.checkIfProtected]

/-- The two list types the 3.5.0 migration loops over; the enum values
are the strings `'GREY'` and `'WHITE'`. -/
inductive ListType where
  | GREY
  | WHITE
  deriving Repr, DecidableEq

def listTypeStr : ListType → String
  | .GREY => "GREY"
  | .WHITE => "WHITE"

/-- JavaScript `Set.add`: appends unless already present (insertion
order preserved, duplicates dropped). -/
def jsSetInsert (l : List String) (x : String) : List String :=
  if x ∈ l then l else l ++ [x]

/-- `new Set(xs)` followed by sequential `add`s, as a list in
insertion order. -/
def jsSetOf (xs : List String) : List String := xs.foldl jsSetInsert []

/-- The values the `runtime.onInstalled` listener observes from its
event `details` and from the store.  `previousVersionNum` is
`convertVersionToNumber(details.previousVersion)` (the function lives
in `services/Libs`); `localstorageCleanupSetting` is the deprecated
`settings.localstorageCleanup` entry (`none` = absent);
`lists` is `store.getState().lists` as ordered key/value pairs;
`ctxStores` the `cookieStoreId`s from `contextualIdentities.query`. -/
structure InstalledEnv where
  reason : String
  previousVersionNum : Nat
  localstorageCleanupSetting : Option Bool
  lists : List (String × List Expression)
  settings : Settings
  ctxStores : List String

/-- Embeds the `< 350` migration block of the `runtime.onInstalled`
listener (lines 345-403): the deprecated-setting rename, the
per-expression `cleanLocalStorage` → `cleanSiteData` migration
(guarded by `exp.cleanLocalStorage && !exp.cleanSiteData`), and the
`_Default:<list>` additions for each container when
`<lt>CleanLocalstorage` was set. -/
def installedMigration350 (env : InstalledEnv) : List Effect :=
  (match env.localstorageCleanupSetting with
   | some v => [.dispatch (.updateSetting "localStorageCleanup" v)]
   | none => [])
  ++ (env.lists.map (fun kv =>
        kv.2.filterMap (fun exp =>
          if exp.cleanLocalStorage && exp.cleanSiteData.isNone then
            some (Effect.dispatch
              (.updateExpression { exp with cleanSiteData := some [SiteDataType.LOCALSTORAGE] }))
          else none))).flatten
  ++ ([ListType.GREY, ListType.WHITE].map (fun lt =>
        if sval env.settings ((listTypeStr lt).toLower ++ "CleanLocalstorage") then
          (jsSetOf ((env.lists.map Prod.fst) ++ ["default"]
              ++ (if sval env.settings "contextualIdentities" then env.ctxStores
                  else []))).map (fun st =>
            Effect.dispatch (.addExpression st ("_Default:" ++ listTypeStr lt)
              (listTypeStr lt) [SiteDataType.LOCALSTORAGE]))
        else [])).flatten

/-- Embeds the `runtime.onInstalled` listener (lines 335-416):
`checkIfProtected` always runs, then the `switch` on
`details.reason`. -/
def onInstalledEffects (env : InstalledEnv) : List Effect :=
  [.checkIfProtected]
  ++ (if env.reason = "install" then [.openOptionsPage]
      else if env.reason = "update" then
        [.dispatch .validateSettings]
        ++ (if env.previousVersionNum < 350 then installedMigration350 env else [])
        ++ (if env.previousVersionNum < 300 then
              [.dispatch .resetCookieDeletedCounter]
            else [])
        ++ (if sval env.settings "enableNewVersionPopup" then [.openOptionsPage]
            else [])
      else [])

/-- Projects the `UPDATE_EXPRESSION` dispatches out of a trace. -/
def updateExpressionOf : Effect → Option Expression
  | .dispatch (.updateExpression e) => some e
  | _ => none

/-! ## Popup port machinery (lines 236-290) -/

/-- A runtime port.  `pid` stands for object identity (two distinct
port objects may carry the same name); `name` is the optional port
name. -/
structure Port where
  pid : Nat
  name : Option String
  deriving Repr, DecidableEq

/-- The guard of `handleConnect` (line 256): the port has a name and
it starts with `popupCAD_`. -/
def goodPortName : Option String → Bool
  | none => false
  | some n => n.startsWith "popupCAD_"

/-- The module state the port machinery mutates: the
`cookiePopupPorts` array and whether `onCookiePopupUpdates` is
currently registered on `cookies.onChanged`. -/
structure ConnState where
  cookiePopupPorts : List Port
  hasCookieListener : Bool
  deriving Repr, DecidableEq

/-- Embeds `handleConnect` (lines 255-288).  Returns the new state and
the list of ports that were sent `{cookieUpdated: true}`.  A port with
a missing or non-`popupCAD_` name is rejected with no effect;
otherwise the cookie listener is (idempotently) present afterwards,
the port is messaged and pushed. -/
def handleConnectFn (st : ConnState) (p : Port) : ConnState × List Port :=
  if goodPortName p.name then
    ({ cookiePopupPorts := st.cookiePopupPorts ++ [p], hasCookieListener := true },
     [p])
  else (st, [])

/-- JavaScript `Array.prototype.findIndex`, as an `Option Nat` (the
source compares against `-1`). -/
def jsFindIndex {α : Type} (p : α → Bool) : List α → Option Nat
  | [] => none
  | a :: tl => if p a then some 0 else (jsFindIndex p tl).map (· + 1)

/-- The `findIndex` callback on lines 278-281: `false` for a nameless
stored port, else name equality with the disconnecting port. -/
def disconnectMatch (dp pp : Port) : Bool :=
  pp.name.isSome && (pp.name == dp.name)

/-- Embeds the `onDisconnect` handler (lines 270-285).  Returns the
new state and whether `removeListener(onCookiePopupUpdates)` was
called.  The listener is removed when `cookiePopupPorts.length - 1 ===
0` (JavaScript number arithmetic, hence the `Int` cast) and the
listener was registered; a nameless disconnecting port returns early;
otherwise the first stored port with the same name is spliced out. -/
def portDisconnect (st : ConnState) (dp : Port) : ConnState × Bool :=
  let removeL : Bool :=
    ((st.cookiePopupPorts.length : Int) - 1 == 0) && st.hasCookieListener
  let hl : Bool := if removeL then false else st.hasCookieListener
  match dp.name with
  | none => ({ st with hasCookieListener := hl }, removeL)
  | some _ =>
    match jsFindIndex (disconnectMatch dp) st.cookiePopupPorts with
    | none => ({ st with hasCookieListener := hl }, removeL)
    | some i =>
      ({ cookiePopupPorts := st.cookiePopupPorts.eraseIdx i,
         hasCookieListener := hl }, removeL)

/-- The events that drive the port machinery: a `runtime.onConnect`
delivery to `handleConnect`, or a disconnect delivered to the handler
a connection installed. -/
inductive ConnEvent where
  | connect (p : Port)
  | disconnect (p : Port)

def connStep (st : ConnState) : ConnEvent → ConnState
  | .connect p => (handleConnectFn st p).1
  | .disconnect p => (portDisconnect st p).1

/-- Initial module state: empty `cookiePopupPorts` array (line 237),
`onCookiePopupUpdates` not registered. -/
def connInit : ConnState :=
  { cookiePopupPorts := [], hasCookieListener := false }

def connRun (evs : List ConnEvent) : ConnState := evs.foldl connStep connInit

/-- The per-port test of `onCookiePopupUpdates` (lines 245-252):
a named `popupCAD_` port is messaged when the first comma-separated
field after the 9-character prefix ends with the changed cookie's
domain or with `extractMainDomain` of it (`emd`, external to this
file). -/
def popupPortMatch (emd : String → String) (domain : String) (p : Port) : Bool :=
  match p.name with
  | none => false
  | some n =>
    if !(n.startsWith "popupCAD_") then false
    else
      let pn0 := ((n.drop 9).splitOn ",").headD ""
      pn0.endsWith domain || pn0.endsWith (emd domain)

/-- Embeds `onCookiePopupUpdates` (lines 239-253): the sublist of
stored ports that are sent `{cookieUpdated: true}` for a change to a
cookie with the given domain. -/
def onCookiePopupUpdatesFn (ports : List Port) (emd : String → String)
    (domain : String) : List Port :=
  ports.filter (popupPortMatch emd domain)

/-- Fixture: the save machinery after one `saveToStorage` call. -/
def saveRunEx : SaveState Nat :=
  saveRun (fun n => toString n) 0 [SaveEvent.saveCall]

/-- Fixture: an `onInstalled` update event from version 2.x.x
(previous version number 299), with a deprecated `localstorageCleanup`
entry and one container holding one migratable and one already
migrated expression. -/
def envUpd : InstalledEnv :=
  { reason := "update"
    previousVersionNum := 299
    localstorageCleanupSetting := some true
    lists := [("default",
      [{ expression := "a.example.com", listType := "WHITE", storeId := "default",
         cleanLocalStorage := true, cleanSiteData := none },
       { expression := "b.example.com", listType := "GREY", storeId := "default",
         cleanLocalStorage := true,
         cleanSiteData := some [SiteDataType.LOCALSTORAGE] }])]
    settings := fun _ => none
    ctxStores := [] }

theorem saveStep_inv {α : Type} (serialize : α → String) (s : SaveState α)
    (ev : SaveEvent α) (h : SaveInv s) : SaveInv (saveStep serialize s ev) := by
  unfold SaveInv at h ⊢
  cases ev with
  | saveCall =>
    by_cases hd : s.delaySave
    · simpa [saveStep, hd] using h
    · simp [saveStep, hd] at h ⊢
      omega
  | timerFire =>
    by_cases hp : s.pending = 0
    · simpa [saveStep, hp] using h
    · have h1 : s.pending ≤ 1 := by split at h <;> omega
      simp [saveStep, hp]
      omega
  | setStore v => simpa [saveStep] using h

theorem saveFoldl_inv {α : Type} (serialize : α → String) :
    ∀ (evs : List (SaveEvent α)) (s : SaveState α), SaveInv s →
      SaveInv (evs.foldl (saveStep serialize) s)
  | [], _, h => h
  | e :: tl, s, h =>
    saveFoldl_inv serialize tl (saveStep serialize s e) (saveStep_inv serialize s e h)

theorem saveRun_inv {α : Type} (serialize : α → String) (st0 : α)
    (evs : List (SaveEvent α)) : SaveInv (saveRun serialize st0 evs) :=
  saveFoldl_inv serialize evs (saveInit st0) (by simp [SaveInv, saveInit])

theorem mem_ite_nil {α : Type} {x : α} {c : Prop} [Decidable c] {l : List α} :
    (x ∈ if c then l else []) ↔ c ∧ x ∈ l := by
  split_ifs with h <;> simp [h]

theorem filterMap_flatten_eq {β γ : Type} (g : β → Option γ) :
    ∀ l : List (List β),
      l.flatten.filterMap g = (l.map (fun xs => xs.filterMap g)).flatten
  | [] => rfl
  | a :: tl => by
    simp [List.filterMap_append, filterMap_flatten_eq g tl]

/-- C1: on startup the store is initialized from disk: when the
`state` entry exists and parses, the store is created from
`JSON.parse(storage.state)`; when the entry is absent or `JSON.parse`
throws (it does on the falsy `""`), the store is created from the
empty object — the initialization is a total function, so `onStartUp`
does not fail here. -/
theorem onStartUp_initializes_store {α : Type} (parse : String → Option α)
    (emptyState : α) (storageState : Option String)
    (hparse : parse "" = none) :
    startupStoreInit parse emptyState storageState =
      match storageState with
      | none => emptyState
      | some s => (parse s).getD emptyState := by
  cases storageState with
  | none => rfl
  | some s =>
    by_cases hs : s = ""
    · subst hs
      simp [startupStoreInit, hparse]
    · simp only [startupStoreInit, if_neg hs]
      cases parse s <;> rfl

theorem onStartUp_initializes_store_witness :
    startupStoreInit (fun s => if s = "7" then some 7 else (none : Option Nat)) 0
        (some "7")
      = ((if ("7" : String) = "7" then some 7 else (none : Option Nat)).getD 0) :=
  onStartUp_initializes_store (fun s => if s = "7" then some 7 else none) 0
    (some "7") (by decide)

/-- C2: `onStartUp` and the module top level subscribe to exactly the
announced browser events: three listeners on `tabs.onUpdated`, two on
`tabs.onRemoved`, `CookieEvents.onCookieChanged` on
`cookies.onChanged`; and at top level `runtime.onConnect` with
`handleConnect`, the `runtime.onStartup` handler, and the
`runtime.onInstalled` handler. -/
theorem subscriptions_exact (mfName mfVersion browserDet biv pos : String)
    (ci am hcm : Bool) :
    (onStartUpEffects mfName mfVersion browserDet biv pos ci am hcm).filterMap
        subscriptionOf =
      [(.tabsOnUpdated, .onDomainChange), (.tabsOnUpdated, .onTabDiscarded),
       (.tabsOnUpdated, .onTabUpdate), (.tabsOnRemoved, .onDomainChangeRemove),
       (.tabsOnRemoved, .cleanFromTabEvents),
       (.cookiesOnChanged, .onCookieChanged)]
    ∧ moduleTopLevelEffects.filterMap subscriptionOf =
      [(.runtimeOnConnect, .handleConnect), (.runtimeOnStartup, .startupHandler),
       (.runtimeOnInstalled, .installedHandler)] := by
  refine ⟨?_, rfl⟩
  by_cases h : browserDet = "Firefox" <;> cases ci <;> cases hcm <;>
    simp [onStartUpEffects, subscriptionOf, h]

/-- C8: `saveToStorage` debounces disk writes: in every reachable
state at most one timer is pending, a call made while `delaySave` is
set has no effect, and a pending flush clears `delaySave` and writes
the serialization of the store state as read at flush time. -/
theorem saveToStorage_debounces {α : Type} (serialize : α → String) (st0 : α)
    (evs : List (SaveEvent α)) :
    (saveRun serialize st0 evs).pending ≤ 1
    ∧ ((saveRun serialize st0 evs).delaySave = true →
        saveStep serialize (saveRun serialize st0 evs) .saveCall
          = saveRun serialize st0 evs)
    ∧ ((saveRun serialize st0 evs).pending ≠ 0 →
        (saveStep serialize (saveRun serialize st0 evs) .timerFire).disk
            = some (serialize (saveRun serialize st0 evs).storeState)
          ∧ (saveStep serialize (saveRun serialize st0 evs) .timerFire).delaySave
              = false
          ∧ (saveStep serialize (saveRun serialize st0 evs) .timerFire).pending
              = (saveRun serialize st0 evs).pending - 1) := by
  have hinv := saveRun_inv serialize st0 evs
  unfold SaveInv at hinv
  refine ⟨?_, ?_, ?_⟩
  · by_cases hd : (saveRun serialize st0 evs).delaySave <;>
      simp [hd] at hinv <;> omega
  · intro hd
    simp [saveStep, hd]
  · intro hp
    simp [saveStep, hp]

theorem saveToStorage_debounces_witness :
    saveRunEx.pending ≤ 1
    ∧ saveStep (fun n : Nat => toString n) saveRunEx .saveCall = saveRunEx
    ∧ ((saveStep (fun n : Nat => toString n) saveRunEx .timerFire).disk
          = some (toString saveRunEx.storeState)
       ∧ (saveStep (fun n : Nat => toString n) saveRunEx .timerFire).delaySave
           = false
       ∧ (saveStep (fun n : Nat => toString n) saveRunEx .timerFire).pending
           = saveRunEx.pending - 1) :=
  ⟨(saveToStorage_debounces (fun n => toString n) 0 [SaveEvent.saveCall]).1,
   (saveToStorage_debounces (fun n => toString n) 0 [SaveEvent.saveCall]).2.1
     (by decide),
   (saveToStorage_debounces (fun n => toString n) 0 [SaveEvent.saveCall]).2.2
     (by decide)⟩

theorem mem_ite_lists {α : Type} {x : α} {c : Prop} [Decidable c]
    {l₁ l₂ : List α} :
    (x ∈ if c then l₁ else l₂) ↔ ((c ∧ x ∈ l₁) ∨ (¬c ∧ x ∈ l₂)) := by
  split_ifs with h <;> simp [h]

theorem trigger_iff :
    ∀ o c : Option Bool,
      (((o.isNone || !(o.getD false)) && c.getD false) = true
        ↔ ((o = none ∨ o = some false) ∧ c = some true)) := by
  decide

theorem carve_iff :
    ∀ (a : SiteDataType) (o : Option Bool),
      ((a == SiteDataType.LOCALSTORAGE && o.isSome && o.getD false) = true
        ↔ (a = SiteDataType.LOCALSTORAGE ∧ o = some true)) := by
  decide

theorem sdCleanupCheck_eq_some_iff (sdToBrowser : SiteDataType → String)
    (prev cur : Settings) (a : SiteDataType) (e : Effect) :
    sdCleanupCheck sdToBrowser prev cur a = some e ↔
      e = Effect.browsingData a
      ∧ (prev (sdToBrowser a ++ "Cleanup") = none
          ∨ prev (sdToBrowser a ++ "Cleanup") = some false)
      ∧ cur (sdToBrowser a ++ "Cleanup") = some true
      ∧ ¬(a = SiteDataType.LOCALSTORAGE
          ∧ prev "localstorageCleanup" = some true) := by
  have htr := trigger_iff (prev (sdToBrowser a ++ "Cleanup"))
    (cur (sdToBrowser a ++ "Cleanup"))
  have hcv := carve_iff a (prev "localstorageCleanup")
  simp only [sdCleanupCheck]
  by_cases h1 : (((prev (sdToBrowser a ++ "Cleanup")).isNone
      || !((prev (sdToBrowser a ++ "Cleanup")).getD false))
      && (cur (sdToBrowser a ++ "Cleanup")).getD false) = true
  · by_cases h2 : (a == SiteDataType.LOCALSTORAGE
        && (prev "localstorageCleanup").isSome
        && (prev "localstorageCleanup").getD false) = true
    · rw [if_pos h1, if_pos h2]
      rw [hcv] at h2
      constructor
      · intro h
        exact Option.noConfusion h
      · rintro ⟨_, _, _, h4⟩
        exact absurd h2 h4
    · rw [if_pos h1, if_neg h2]
      rw [htr] at h1
      constructor
      · intro h
        obtain rfl := Option.some.inj h
        exact ⟨rfl, h1.1, h1.2, fun hc => h2 (hcv.mpr hc)⟩
      · rintro ⟨he, _⟩
        rw [he]
  · rw [if_neg h1]
    rw [htr] at h1
    constructor
    · intro h
      exact Option.noConfusion h
    · rintro ⟨_, hp, hcne, _⟩
      exact absurd ⟨hp, hcne⟩ h1

theorem browsingData_mem_onSettingsChange (sdts : List SiteDataType)
    (sdToBrowser : SiteDataType → String) (prev cur : Settings)
    (t : SiteDataType) :
    Effect.browsingData t ∈ onSettingsChangeEffects sdts sdToBrowser prev cur ↔
      Effect.browsingData t ∈ sdts.filterMap (sdCleanupCheck sdToBrowser prev cur) := by
  simp [onSettingsChangeEffects, mem_ite_lists]

/-- C5: in `onSettingsChange`, for every site-data type the
`browsingDataCleanup` call happens exactly when the `<type>Cleanup`
setting transitions from undefined-or-false to true, except that for
LocalStorage the cleanup is skipped when the previous settings had a
truthy `localstorageCleanup` entry (the 3.4.0→3.5.1+ carve-out). -/
theorem onSettingsChange_browsingData (sdts : List SiteDataType)
    (sdToBrowser : SiteDataType → String) (prev cur : Settings)
    (t : SiteDataType) :
    Effect.browsingData t ∈ onSettingsChangeEffects sdts sdToBrowser prev cur ↔
      t ∈ sdts
      ∧ (prev (sdToBrowser t ++ "Cleanup") = none
          ∨ prev (sdToBrowser t ++ "Cleanup") = some false)
      ∧ cur (sdToBrowser t ++ "Cleanup") = some true
      ∧ ¬(t = SiteDataType.LOCALSTORAGE
          ∧ prev "localstorageCleanup" = some true) := by
  rw [browsingData_mem_onSettingsChange, List.mem_filterMap]
  constructor
  · rintro ⟨a, ha, hsome⟩
    rw [sdCleanupCheck_eq_some_iff] at hsome
    obtain ⟨he, hp, hc, hn⟩ := hsome
    obtain rfl : t = a := by
      injection he
    exact ⟨ha, hp, hc, hn⟩
  · rintro ⟨ht, hp, hc, hn⟩
    refine ⟨t, ht, ?_⟩
    rw [sdCleanupCheck_eq_some_iff]
    exact ⟨rfl, hp, hc, hn⟩

theorem dispatch_not_mem_sdFilterMap (sdts : List SiteDataType)
    (sdToBrowser : SiteDataType → String) (prev cur : Settings) (ac : Action) :
    Effect.dispatch ac ∉ sdts.filterMap (sdCleanupCheck sdToBrowser prev cur) := by
  intro h
  rw [List.mem_filterMap] at h
  obtain ⟨a, _, hsome⟩ := h
  rw [sdCleanupCheck_eq_some_iff] at hsome
  exact Effect.noConfusion hsome.1

theorem append_tail_exists {α : Type} (a b c d e f g : List α) :
    ∃ pre, a ++ (b ++ (c ++ (d ++ (e ++ (f ++ g))))) = pre ++ g :=
  ⟨a ++ b ++ c ++ d ++ e ++ f, by simp [List.append_assoc]⟩

/-- C7: in `onSettingsChange`, `cacheCookieStoreIdNames` is dispatched
exactly when `contextualIdentities` transitions from false to true;
when `localStorageCleanup` differs between previous and current
settings an `UPDATE_SETTING` for the deprecated `localstorageCleanup`
with the new value is dispatched; and every call ends with
`checkIfProtected` followed by a `validateSettings` dispatch. -/
theorem onSettingsChange_transitions (sdts : List SiteDataType)
    (sdToBrowser : SiteDataType → String) (prev cur : Settings) :
    (Effect.dispatch Action.cacheCookieStoreIdNames
        ∈ onSettingsChangeEffects sdts sdToBrowser prev cur
      ↔ sval prev "contextualIdentities" = false
        ∧ sval cur "contextualIdentities" = true)
    ∧ (Effect.dispatch (Action.updateSetting "localstorageCleanup"
          (sval cur "localStorageCleanup"))
        ∈ onSettingsChangeEffects sdts sdToBrowser prev cur
      ↔ ¬(sval prev "localStorageCleanup" = sval cur "localStorageCleanup"))
    ∧ ∃ pre, onSettingsChangeEffects sdts sdToBrowser prev cur
        = pre ++ [Effect.checkIfProtected, Effect.dispatch Action.validateSettings] := by
  refine ⟨?_, ?_, ?_⟩
  · simp [onSettingsChangeEffects, mem_ite_lists]
    intro x _ hx
    rw [sdCleanupCheck_eq_some_iff] at hx
    exact Effect.noConfusion hx.1
  · simp [onSettingsChangeEffects, mem_ite_lists]
    intro x _ hx
    rw [sdCleanupCheck_eq_some_iff] at hx
    exact Effect.noConfusion hx.1
  · exact ⟨_, rfl⟩

/-- C6: on `runtime.onStartup`, a `cookieCleanup` with
`greyCleanup: true` is dispatched exactly when `activeMode` is `true`,
`enableGreyListCleanup` is `true`, and no queried normal-window tab
has url `about:sessionrestore`; when any condition fails no cleanup
action is dispatched at startup. -/
theorem startup_dispatches_greyCleanup (settings : Settings) (tabs : List Tab) :
    (Effect.dispatch (Action.cookieCleanup true
          (settings "cleanCookiesFromOpenTabsOnStartup"))
        ∈ startupHandlerEffects settings tabs
      ↔ settings "activeMode" = some true
        ∧ settings "enableGreyListCleanup" = some true
        ∧ tabs.any (fun tab => tab.url == some "about:sessionrestore") = false)
    ∧ (∀ g io, Effect.dispatch (Action.cookieCleanup g io)
          ∈ startupHandlerEffects settings tabs →
        g = true ∧ io = settings "cleanCookiesFromOpenTabsOnStartup") := by
  by_cases h1 : settings "activeMode" = some true
  · by_cases h2 : settings "enableGreyListCleanup" = some true
    · by_cases h3 : tabs.any (fun tab => tab.url == some "about:sessionrestore") = true
      · simp [startupHandlerEffects, greyCleanupEffects, h1, h2, h3]
      · have h3f : tabs.any (fun tab => tab.url == some "about:sessionrestore")
            = false := by
          simpa using h3
        simp [startupHandlerEffects, greyCleanupEffects, sval, h1, h2, h3f]
    · simp [startupHandlerEffects, greyCleanupEffects, h1, h2]
  · simp [startupHandlerEffects, greyCleanupEffects, h1]

theorem mem_migration_cases (env : InstalledEnv) (e : Effect)
    (h : e ∈ installedMigration350 env) :
    (∃ v, env.localstorageCleanupSetting = some v
       ∧ e = .dispatch (.updateSetting "localStorageCleanup" v))
    ∨ (∃ ex, e = .dispatch (.updateExpression ex))
    ∨ (∃ s ex lt csd, e = .dispatch (.addExpression s ex lt csd)) := by
  rw [installedMigration350] at h
  rcases List.mem_append.1 h with h' | hC
  · rcases List.mem_append.1 h' with hA | hB
    · cases hls : env.localstorageCleanupSetting with
      | none => rw [hls] at hA; cases hA
      | some v =>
        rw [hls] at hA
        simp at hA
        exact Or.inl ⟨v, rfl, hA⟩
    · rw [List.mem_flatten] at hB
      obtain ⟨l, hl, hel⟩ := hB
      rw [List.mem_map] at hl
      obtain ⟨kv, _, rfl⟩ := hl
      rw [List.mem_filterMap] at hel
      obtain ⟨exp, _, hsome⟩ := hel
      by_cases hc : (exp.cleanLocalStorage && exp.cleanSiteData.isNone) = true
      · rw [if_pos hc] at hsome
        exact Or.inr (Or.inl ⟨_, (Option.some.inj hsome).symm⟩)
      · rw [if_neg hc] at hsome
        cases hsome
  · rw [List.mem_flatten] at hC
    obtain ⟨l, hl, hel⟩ := hC
    rw [List.mem_map] at hl
    obtain ⟨lt, _, rfl⟩ := hl
    by_cases hg : sval env.settings ((listTypeStr lt).toLower ++ "CleanLocalstorage")
        = true
    · rw [if_pos hg] at hel
      rw [List.mem_map] at hel
      obtain ⟨st, _, rfl⟩ := hel
      exact Or.inr (Or.inr ⟨_, _, _, _, rfl⟩)
    · rw [if_neg hg] at hel
      cases hel

theorem reset_not_mem_migration (env : InstalledEnv) :
    Effect.dispatch Action.resetCookieDeletedCounter ∉ installedMigration350 env := by
  intro h
  rcases mem_migration_cases env _ h with ⟨v, _, hv⟩ | ⟨ex, hex⟩ | ⟨s, ex, lt, csd, ha⟩ <;>
    simp_all

/-- C3: for every `onInstalled` event, reason `install` opens the
options page and dispatches no action; reason `update` dispatches
`validateSettings`, and dispatches `RESET_COOKIE_DELETED_COUNTER`
exactly when `convertVersionToNumber(details.previousVersion) < 300`;
any other reason changes nothing beyond the unconditional
`checkIfProtected`. -/
theorem onInstalled_reason_cases (env : InstalledEnv) :
    (env.reason = "install" →
        onInstalledEffects env = [Effect.checkIfProtected, Effect.openOptionsPage])
    ∧ (env.reason = "update" →
        Effect.dispatch Action.validateSettings ∈ onInstalledEffects env
        ∧ (Effect.dispatch Action.resetCookieDeletedCounter ∈ onInstalledEffects env
            ↔ env.previousVersionNum < 300))
    ∧ (env.reason ≠ "install" → env.reason ≠ "update" →
        onInstalledEffects env = [Effect.checkIfProtected]) := by
  refine ⟨?_, ?_, ?_⟩
  · intro h
    simp [onInstalledEffects, h]
  · intro h
    have hno := reset_not_mem_migration env
    constructor
    · simp [onInstalledEffects, h, mem_ite_lists]
    · by_cases h3 : env.previousVersionNum < 300 <;>
        by_cases h5 : env.previousVersionNum < 350 <;>
          by_cases h4 : sval env.settings "enableNewVersionPopup" = true <;>
            simp [onInstalledEffects, h, h3, h4, h5, mem_ite_lists, hno]
  · intro h1 h2
    simp [onInstalledEffects, h1, h2]

theorem filterMap_guard {β γ : Type} (p : β → Bool) (g : β → γ) :
    ∀ l : List β,
      l.filterMap (fun x => if p x then some (g x) else none) = (l.filter p).map g
  | [] => rfl
  | a :: tl => by
    by_cases h : p a = true <;>
      simp [List.filterMap_cons, List.filter_cons, h, filterMap_guard p g tl]

theorem filterMap_updE_inner (l : List Expression) :
    (l.filterMap (fun exp =>
        if exp.cleanLocalStorage && exp.cleanSiteData.isNone then
          some (Effect.dispatch (Action.updateExpression
            { exp with cleanSiteData := some [SiteDataType.LOCALSTORAGE] }))
        else none)).filterMap updateExpressionOf
      = (l.filter (fun exp =>
            exp.cleanLocalStorage && exp.cleanSiteData.isNone)).map
          (fun exp => { exp with cleanSiteData := some [SiteDataType.LOCALSTORAGE] }) := by
  rw [List.filterMap_filterMap]
  have hfun : (fun exp : Expression =>
        (if exp.cleanLocalStorage && exp.cleanSiteData.isNone then
            some (Effect.dispatch (Action.updateExpression
              { exp with cleanSiteData := some [SiteDataType.LOCALSTORAGE] }))
          else none).bind updateExpressionOf)
      = (fun exp : Expression =>
          if exp.cleanLocalStorage && exp.cleanSiteData.isNone then
            some { exp with cleanSiteData := some [SiteDataType.LOCALSTORAGE] }
          else none) := by
    funext exp
    by_cases h : (exp.cleanLocalStorage && exp.cleanSiteData.isNone) = true
    · rw [if_pos h, if_pos h]
      rfl
    · rw [if_neg h, if_neg h]
      rfl
  rw [hfun]
  exact filterMap_guard _ _ l

theorem migration_filterMap_updE (env : InstalledEnv) :
    (installedMigration350 env).filterMap updateExpressionOf
      = (env.lists.map (fun kv =>
          (kv.2.filter (fun exp =>
              exp.cleanLocalStorage && exp.cleanSiteData.isNone)).map
            (fun exp =>
              { exp with cleanSiteData := some [SiteDataType.LOCALSTORAGE] }))).flatten := by
  rw [installedMigration350]
  simp only [List.filterMap_append]
  have hA : (match env.localstorageCleanupSetting with
      | some v => [Effect.dispatch (Action.updateSetting "localStorageCleanup" v)]
      | none => ([] : List Effect)).filterMap updateExpressionOf = [] := by
    cases env.localstorageCleanupSetting <;> simp [updateExpressionOf]
  rw [hA]
  rw [filterMap_flatten_eq, List.map_map]
  have hC : (([ListType.GREY, ListType.WHITE].map (fun lt =>
        if sval env.settings ((listTypeStr lt).toLower ++ "CleanLocalstorage") then
          (jsSetOf ((env.lists.map Prod.fst) ++ ["default"]
              ++ (if sval env.settings "contextualIdentities" then env.ctxStores
                  else []))).map (fun st =>
            Effect.dispatch (.addExpression st ("_Default:" ++ listTypeStr lt)
              (listTypeStr lt) [SiteDataType.LOCALSTORAGE]))
        else [])).flatten).filterMap updateExpressionOf = [] := by
    rw [List.filterMap_eq_nil_iff]
    intro a ha
    rw [List.mem_flatten] at ha
    obtain ⟨l, hl, hal⟩ := ha
    rw [List.mem_map] at hl
    obtain ⟨lt, _, rfl⟩ := hl
    by_cases hg : sval env.settings ((listTypeStr lt).toLower ++ "CleanLocalstorage")
        = true
    · rw [if_pos hg] at hal
      rw [List.mem_map] at hal
      obtain ⟨st, _, rfl⟩ := hal
      rfl
    · rw [if_neg hg] at hal
      cases hal
  rw [hC]
  have hB : env.lists.map (List.filterMap updateExpressionOf ∘ fun kv =>
        kv.2.filterMap (fun exp =>
          if exp.cleanLocalStorage && exp.cleanSiteData.isNone then
            some (Effect.dispatch (Action.updateExpression
              { exp with cleanSiteData := some [SiteDataType.LOCALSTORAGE] }))
          else none))
      = env.lists.map (fun kv =>
          (kv.2.filter (fun exp =>
              exp.cleanLocalStorage && exp.cleanSiteData.isNone)).map
            (fun exp =>
              { exp with cleanSiteData := some [SiteDataType.LOCALSTORAGE] })) := by
    congr 1
    funext kv
    exact filterMap_updE_inner kv.2
  rw [hB]
  simp

theorem updateSetting_mem_migration_iff (env : InstalledEnv) (v : Bool) :
    Effect.dispatch (Action.updateSetting "localStorageCleanup" v)
        ∈ installedMigration350 env
      ↔ env.localstorageCleanupSetting = some v := by
  constructor
  · intro h
    rcases mem_migration_cases env _ h with ⟨v', hls, hv⟩ | ⟨ex, hex⟩ | ⟨s, ex, lt, csd, ha⟩
    · simp at hv
      rw [hls, hv]
    · simp at hex
    · simp at ha
  · intro h
    rw [installedMigration350]
    refine List.mem_append.2 (Or.inl (List.mem_append.2 (Or.inl ?_)))
    rw [h]
    simp

/-- C4: on an update from a version before 3.5.0, the deprecated
`localstorageCleanup` setting (when present) is migrated by an
`UPDATE_SETTING` of `localStorageCleanup` to its value, and an
`UPDATE_EXPRESSION` setting `cleanSiteData` to `[LocalStorage]` is
dispatched for exactly those expressions whose `cleanLocalStorage` is
truthy and whose `cleanSiteData` is absent; all other expressions get
no `UPDATE_EXPRESSION`. -/
theorem onInstalled_migration350 (env : InstalledEnv)
    (hr : env.reason = "update") (hv : env.previousVersionNum < 350) :
    (∀ v, Effect.dispatch (Action.updateSetting "localStorageCleanup" v)
        ∈ onInstalledEffects env ↔ env.localstorageCleanupSetting = some v)
    ∧ (onInstalledEffects env).filterMap updateExpressionOf
        = (env.lists.map (fun kv =>
            (kv.2.filter (fun exp =>
                exp.cleanLocalStorage && exp.cleanSiteData.isNone)).map
              (fun exp =>
                { exp with cleanSiteData := some [SiteDataType.LOCALSTORAGE] }))).flatten := by
  constructor
  · intro v
    rw [← updateSetting_mem_migration_iff env v]
    by_cases h3 : env.previousVersionNum < 300 <;>
      by_cases h4 : sval env.settings "enableNewVersionPopup" = true <;>
        simp [onInstalledEffects, hr, hv, h3, h4, mem_ite_lists]
  · rw [onInstalledEffects]
    rw [if_neg (by simp [hr]), if_pos hr, if_pos hv]
    simp only [List.filterMap_append]
    rw [migration_filterMap_updE env]
    have e1 : (if env.previousVersionNum < 300 then
          [Effect.dispatch Action.resetCookieDeletedCounter]
        else []).filterMap updateExpressionOf = [] := by
      split_ifs <;> simp [updateExpressionOf]
    have e2 : (if sval env.settings "enableNewVersionPopup" then
          [Effect.openOptionsPage]
        else ([] : List Effect)).filterMap updateExpressionOf = [] := by
      split_ifs <;> simp [updateExpressionOf]
    rw [e1, e2]
    simp [updateExpressionOf]

theorem onInstalled_migration350_witness :
    (Effect.dispatch (Action.updateSetting "localStorageCleanup" true)
        ∈ onInstalledEffects envUpd
      ↔ envUpd.localstorageCleanupSetting = some true)
    ∧ (onInstalledEffects envUpd).filterMap updateExpressionOf
        = (envUpd.lists.map (fun kv =>
            (kv.2.filter (fun exp =>
                exp.cleanLocalStorage && exp.cleanSiteData.isNone)).map
              (fun exp =>
                { exp with cleanSiteData := some [SiteDataType.LOCALSTORAGE] }))).flatten :=
  ⟨(onInstalled_migration350 envUpd rfl (by decide)).1 true,
   (onInstalled_migration350 envUpd rfl (by decide)).2⟩

theorem jsFindIndex_append_first {α : Type} (p : α → Bool) :
    ∀ (l₁ : List α) (a : α) (l₂ : List α),
      (∀ q ∈ l₁, p q = false) → p a = true →
      jsFindIndex p (l₁ ++ a :: l₂) = some l₁.length
  | [], a, l₂, _, ha => by simp [jsFindIndex, ha]
  | b :: tl, a, l₂, h, ha => by
    have hb : p b = false := h b (List.mem_cons_self b tl)
    simp [jsFindIndex, hb,
      jsFindIndex_append_first p tl a l₂
        (fun q hq => h q (List.mem_cons_of_mem b hq)) ha]

theorem eraseIdx_append_len {α : Type} :
    ∀ (l₁ : List α) (a : α) (l₂ : List α),
      (l₁ ++ a :: l₂).eraseIdx l₁.length = l₁ ++ l₂
  | [], _, _ => rfl
  | b :: tl, a, l₂ => congrArg (List.cons b) (eraseIdx_append_len tl a l₂)

theorem portDisconnect_ports_subset (st : ConnState) (dp : Port) :
    (portDisconnect st dp).1.cookiePopupPorts ⊆ st.cookiePopupPorts := by
  intro q hq
  simp only [portDisconnect] at hq
  cases hn : dp.name with
  | none =>
    rw [hn] at hq
    exact hq
  | some n =>
    rw [hn] at hq
    cases hj : jsFindIndex (disconnectMatch dp) st.cookiePopupPorts with
    | none =>
      rw [hj] at hq
      exact hq
    | some i =>
      rw [hj] at hq
      exact (List.eraseIdx_sublist st.cookiePopupPorts i).subset hq

theorem connStep_preserves_good (st : ConnState) (ev : ConnEvent)
    (h : st.cookiePopupPorts.all (fun q => goodPortName q.name) = true) :
    (connStep st ev).cookiePopupPorts.all (fun q => goodPortName q.name) = true := by
  cases ev with
  | connect p =>
    by_cases hg : goodPortName p.name = true
    · rw [List.all_eq_true] at h ⊢
      intro q hq
      simp [connStep, handleConnectFn, hg] at hq
      rcases hq with hq | hq
      · exact h q hq
      · rw [hq]
        exact hg
    · simp [connStep, handleConnectFn, hg, h]
  | disconnect p =>
    rw [List.all_eq_true] at h ⊢
    intro q hq
    exact h q (portDisconnect_ports_subset st p hq)

theorem connRun_good :
    ∀ (evs : List ConnEvent) (st : ConnState),
      st.cookiePopupPorts.all (fun q => goodPortName q.name) = true →
      (evs.foldl connStep st).cookiePopupPorts.all (fun q => goodPortName q.name)
        = true
  | [], _, h => h
  | e :: tl, st, h =>
    connRun_good tl (connStep st e) (connStep_preserves_good st e h)

theorem portDisconnect_flag (st : ConnState) (dp : Port) :
    (portDisconnect st dp).2 = true
      ↔ st.cookiePopupPorts.length = 1 ∧ st.hasCookieListener = true := by
  have h2 : (portDisconnect st dp).2
      = (((st.cookiePopupPorts.length : Int) - 1 == 0) && st.hasCookieListener) := by
    simp only [portDisconnect]
    cases hn : dp.name with
    | none => rfl
    | some n =>
      cases hj : jsFindIndex (disconnectMatch dp) st.cookiePopupPorts <;> rfl
  rw [h2, Bool.and_eq_true, beq_iff_eq]
  constructor
  · rintro ⟨h, hb⟩
    exact ⟨by omega, hb⟩
  · rintro ⟨h, hb⟩
    exact ⟨by omega, hb⟩

/-- C9: the `cookiePopupPorts` invariant and the port lifecycle: every
stored port's name starts with `popupCAD_`; `handleConnect` is a no-op
for a port with a missing or foreign name, and an accepted port is
messaged `{cookieUpdated: true}` and appended; on disconnect the first
stored port with the disconnecting port's name is spliced out, and the
`onCookiePopupUpdates` listener is removed exactly when one port was
stored (and the listener registered) at disconnect time. -/
theorem cookiePopupPorts_lifecycle (evs : List ConnEvent) (st : ConnState)
    (p dp q0 : Port) (l₁ l₂ : List Port) :
    ((connRun evs).cookiePopupPorts.all (fun q => goodPortName q.name) = true)
    ∧ (goodPortName p.name = false → handleConnectFn st p = (st, []))
    ∧ (goodPortName p.name = true →
        handleConnectFn st p
          = ({ cookiePopupPorts := st.cookiePopupPorts ++ [p],
               hasCookieListener := true }, [p]))
    ∧ ((portDisconnect st dp).2 = true
        ↔ st.cookiePopupPorts.length = 1 ∧ st.hasCookieListener = true)
    ∧ (dp.name.isSome = true →
        st.cookiePopupPorts = l₁ ++ q0 :: l₂ →
        disconnectMatch dp q0 = true →
        (∀ q ∈ l₁, disconnectMatch dp q = false) →
        (portDisconnect st dp).1.cookiePopupPorts = l₁ ++ l₂) := by
  refine ⟨connRun_good evs connInit rfl, ?_, ?_, portDisconnect_flag st dp, ?_⟩
  · intro hg
    simp [handleConnectFn, hg]
  · intro hg
    simp [handleConnectFn, hg]
  · intro hsome hports hmatch hprev
    obtain ⟨n, hn⟩ := Option.isSome_iff_exists.1 hsome
    have hj : jsFindIndex (disconnectMatch dp) st.cookiePopupPorts
        = some l₁.length := by
      rw [hports]
      exact jsFindIndex_append_first _ l₁ q0 l₂ hprev hmatch
    simp only [portDisconnect, hn, hj]
    rw [hports]
    exact eraseIdx_append_len l₁ q0 l₂

theorem popupPortMatch_iff (emd : String → String) (domain : String) (p : Port) :
    popupPortMatch emd domain p = true ↔
      ∃ n, p.name = some n ∧ n.startsWith "popupCAD_" = true
        ∧ ((((n.drop 9).splitOn ",").headD "").endsWith domain = true
            ∨ (((n.drop 9).splitOn ",").headD "").endsWith (emd domain) = true) := by
  cases hn : p.name with
  | none => simp [popupPortMatch, hn]
  | some n =>
    by_cases hs : n.startsWith "popupCAD_" = true <;>
      simp [popupPortMatch, hn, hs, Bool.or_eq_true]

/-- C10: for a cookie-change event, `onCookiePopupUpdates` posts
`{cookieUpdated: true}` to a stored port exactly when the port's name
starts with `popupCAD_` and the first comma-separated field after the
prefix ends with the changed cookie's domain or with
`extractMainDomain` of it; other ports receive nothing. -/
theorem onCookiePopupUpdates_posts (ports : List Port) (emd : String → String)
    (domain : String) (p : Port) :
    p ∈ onCookiePopupUpdatesFn ports emd domain ↔
      p ∈ ports
      ∧ ∃ n, p.name = some n ∧ n.startsWith "popupCAD_" = true
        ∧ ((((n.drop 9).splitOn ",").headD "").endsWith domain = true
            ∨ (((n.drop 9).splitOn ",").headD "").endsWith (emd domain) = true) := by
  rw [onCookiePopupUpdatesFn, List.mem_filter]
  exact and_congr_right fun _ => popupPortMatch_iff emd domain p

end CADBackground
